import Mathlib

/-!
Verification of the librealsense sensor/frame-source core (src/sensor.cpp,
src/source.cpp) against its natural-language specification.

The C++ is shallowly embedded: each member function becomes a Lean function
on an explicit state record; device/transport calls become events recorded in
a trace list, and an oracle record says which transport calls fail; C++
exceptions become an `Option Err` (`some e` = the exception propagated out of
the function).  Unless noted otherwise every definition transcribes the
corresponding function from the source files line by line.
-/

namespace LRS

/-- Exceptions raised by the embedded code.  `wrongApiCallSequence` embeds
librealsense's `wrong_api_call_sequence_exception`; `runtimeError` embeds
`std::runtime_error`. -/
inductive Err
  | wrongApiCallSequence (msg : String)
  | runtimeError (msg : String)
deriving DecidableEq, Repr

/-- True exactly for the invalid-sequence (`wrong_api_call_sequence`) error. -/
def Err.isWrongSeq : Err → Bool
  | .wrongApiCallSequence _ => true
  | _ => false

/-- `seqErr o` holds when `o` carries a `wrong_api_call_sequence` error. -/
def seqErr : Option Err → Bool
  | some e => e.isWrongSeq
  | none => false

/-- Observable side effects of a sensor operation, in program order.
`flagStreaming b` records the assignment `_is_streaming = b`;
`setPowerState true`/`false` record `set_power_state(D0)`/`(D3)`;
the rest name the device/source calls of sensor.cpp. -/
inductive Event
  | setPowerState (d0 : Bool)
  | initXu (xu : Nat)
  | probeAndCommit (p : Nat)
  | closeProfile (p : Nat)
  | streamOn
  | startCallbacks
  | stopCallbacks
  | startCapture
  | stopCapture
  | hidOpen
  | hidClose
  | timestampReset
  | raiseStreamingChanges (b : Bool)
  | flagStreaming (b : Bool)
  | setCallback
  | sourceInit
  | sourceFlush
  | sourceReset
  | logError
deriving DecidableEq, Repr

/-- A stream request (`stream_profile_interface`): rs2 stream type, frame
rate, and the backend (physical) profile id it commits to. -/
structure Profile where
  stream : Nat
  fps : Nat
  backend : Nat
deriving DecidableEq, Repr

/-- rs2_stream enum values used by the embedded code. -/
def RS2_STREAM_GYRO : Nat := 5

/-- rs2_stream enum value for ACCEL. -/
def RS2_STREAM_ACCEL : Nat := 6

/-- Result of one sensor operation: the state object after the call (the
fields as the C++ left them, also when an exception unwound), the trace of
side effects that happened before the call returned or the exception
propagated, and the propagated exception if any. -/
structure StepR (σ : Type) where
  state : σ
  events : List Event
  err : Option Err
deriving DecidableEq, Repr

/-- Transport-failure oracle for a `uvc_sensor`'s device plus the sensor's
registered extension units (`_xus`). -/
structure UvcDevice where
  commitFails : Nat → Bool
  streamOnFails : Bool
  powerOnFails : Bool
  powerOffFails : Bool
  xus : List Nat

/-- State of a `uvc_sensor`: `_is_opened`, `_is_streaming`, the active-stream
set `_active_profiles`, the committed backend profiles `_internal_config`,
whether the `_power` token is held, the power reference count `_user_count`,
and the `frame_source` state (callback pointer and metadata-parser map). -/
structure UvcState where
  is_opened : Bool
  is_streaming : Bool
  active : List Profile
  internal_config : List Nat
  power : Bool
  user_count : Int
  source_callback : Option Nat
  source_parsers : Bool
deriving DecidableEq, Repr

/-- A `uvc_sensor` in the Closed state, power count zero. -/
def closedUvc : UvcState :=
  ⟨false, false, [], [], false, 0, none, false⟩

/-- The frame-source callback visible through
`sensor_base::get_frames_callback` (source.cpp:112). -/
def UvcState.get_frames_callback (s : UvcState) : Option Nat :=
  s.source_callback

/-- Embeds `uvc_sensor::acquire_power` (sensor.cpp:647): `fetch_add(1)`;
on the 0 to 1 transition call `set_power_state(D0)` and re-apply every
registered extension unit; if the transport call throws, roll the count back
and re-raise.  Returns (new count, events, propagated error). -/
def acquire_power (dev : UvcDevice) (count : Int) : Int × List Event × Option Err :=
  if count = 0 then
    if dev.powerOnFails then
      (count, [Event.logError], some (Err.runtimeError "acquire_power failed"))
    else
      (count + 1, Event.setPowerState true :: dev.xus.map Event.initXu, none)
  else
    (count + 1, [], none)

/-- Embeds `uvc_sensor::release_power` (sensor.cpp:673): `fetch_add(-1)`;
on the 1 to 0 transition call `set_power_state(D3)`; a transport failure is
caught and logged, never re-raised (hence no error in the result type). -/
def release_power (dev : UvcDevice) (count : Int) : Int × List Event :=
  if count = 1 then
    if dev.powerOffFails then
      (count - 1, [Event.logError])
    else
      (count - 1, [Event.setPowerState false])
  else
    (count - 1, [])

/-- Embeds `uvc_sensor::verify_supported_requests` (sensor.cpp:341): throws
when two requests share a stream type (the stream-to-fps map is smaller than
the request list), or when GYRO and ACCEL are both requested with different
frame rates.  Returns the exception, if any. -/
def verify_supported_requests (reqs : List Profile) : Option Err :=
  if (reqs.map (·.stream)).dedup.length < reqs.length then
    some (Err.runtimeError "Wrong configuration requested")
  else
    match reqs.find? (fun r => r.stream == RS2_STREAM_GYRO),
          reqs.find? (fun r => r.stream == RS2_STREAM_ACCEL) with
    | some g, some a =>
      if g.fps ≠ a.fps then
        some (Err.runtimeError "Wrong configuration requested - GYRO and ACCEL streams fps to be equal for this device")
      else
        none
    | _, _ => none

/-- Embeds the `probe_and_commit` loop of `uvc_sensor::open`
(sensor.cpp:392-540): commit each request in order; if a commit throws, close
every previously committed profile and re-raise.  Returns (events, committed
backend profiles, propagated error). -/
def commit_loop (dev : UvcDevice) : List Profile → List Nat → List Event × List Nat × Option Err
  | [], committed => ([], committed, none)
  | r :: rest, committed =>
    if dev.commitFails r.backend then
      (committed.map Event.closeProfile, committed, some (Err.runtimeError "probe_and_commit failed"))
    else
      let t := commit_loop dev rest (committed ++ [r.backend])
      (Event.probeAndCommit r.backend :: t.1, t.2.1, t.2.2)

/-- Embeds `uvc_sensor::open` (sensor.cpp:375): sequence-error guards, power
acquisition, `_source.init`, request verification, the commit loop with its
rollback, then `stream_on` with its own rollback (close all committed
profiles, reset streaming, release power, clear `_is_opened`, re-raise), and
finally `set_active_streams(requests)`.  The power token acquired at entry is
released whenever an exception unwinds out of the body. -/
def uvc_open (dev : UvcDevice) (s : UvcState) (reqs : List Profile) : StepR UvcState :=
  if s.is_streaming then
    ⟨s, [], some (Err.wrongApiCallSequence "open(...) failed. UVC device is streaming!")⟩
  else if s.is_opened then
    ⟨s, [], some (Err.wrongApiCallSequence "open(...) failed. UVC device is already opened!")⟩
  else
    let a := acquire_power dev s.user_count
    match a.2.2 with
    | some e => ⟨{ s with user_count := a.1 }, a.2.1, some e⟩
    | none =>
      let s1 := { s with user_count := a.1, source_parsers := true }
      match verify_supported_requests reqs with
      | some e =>
        let r := release_power dev s1.user_count
        ⟨{ s1 with user_count := r.1 }, a.2.1 ++ r.2, some e⟩
      | none =>
        let c := commit_loop dev reqs []
        match c.2.2 with
        | some e =>
          let r := release_power dev s1.user_count
          ⟨{ s1 with user_count := r.1 }, a.2.1 ++ c.1 ++ r.2, some e⟩
        | none =>
          let s2 := { s1 with internal_config := c.2.1, power := true, is_opened := true }
          if dev.streamOnFails then
            let r := release_power dev s2.user_count
            ⟨{ s2 with source_callback := none, source_parsers := false,
                       user_count := r.1, power := false, is_opened := false },
              a.2.1 ++ c.1 ++ c.2.1.map Event.closeProfile
                ++ [Event.sourceFlush, Event.sourceReset, Event.timestampReset] ++ r.2,
              some (Err.runtimeError "stream_on failed")⟩
          else
            ⟨{ s2 with active := reqs }, a.2.1 ++ c.1 ++ [Event.streamOn], none⟩

/-- Embeds `uvc_sensor::close` (sensor.cpp:583): sequence-error guards, then
best-effort close of every committed profile, `reset_streaming()` (source
flush, source reset which clears the callback and the parser map, timestamp
reader reset), power release, `_is_opened = false`, empty active streams. -/
def uvc_close (dev : UvcDevice) (s : UvcState) : StepR UvcState :=
  if s.is_streaming then
    ⟨s, [], some (Err.wrongApiCallSequence "close() failed. UVC device is streaming!")⟩
  else if !s.is_opened then
    ⟨s, [], some (Err.wrongApiCallSequence "close() failed. UVC device was not opened!")⟩
  else
    let r := release_power dev s.user_count
    ⟨{ s with source_callback := none, source_parsers := false,
              user_count := r.1, power := false, is_opened := false, active := [] },
      s.internal_config.map Event.closeProfile
        ++ [Event.sourceFlush, Event.sourceReset, Event.timestampReset] ++ r.2,
      none⟩

/-- Embeds `uvc_sensor::start` (sensor.cpp:614): sequence-error guards, then
the pre-streaming notification, callback installation, `_is_streaming = true`,
and only then `start_callbacks` on the device. -/
def uvc_start (s : UvcState) (cb : Nat) : StepR UvcState :=
  if s.is_streaming then
    ⟨s, [], some (Err.wrongApiCallSequence "start_streaming(...) failed. UVC device is already streaming!")⟩
  else if !s.is_opened then
    ⟨s, [], some (Err.wrongApiCallSequence "start_streaming(...) failed. UVC device was not opened!")⟩
  else
    ⟨{ s with source_callback := some cb, is_streaming := true },
      [Event.raiseStreamingChanges true, Event.setCallback,
       Event.flagStreaming true, Event.startCallbacks],
      none⟩

/-- Embeds `uvc_sensor::stop` (sensor.cpp:628): sequence-error guard, then
`_is_streaming = false`, `stop_callbacks`, timestamp reader reset, and the
post-stop notification — in that order.  The frame source is not touched. -/
def uvc_stop (s : UvcState) : StepR UvcState :=
  if !s.is_streaming then
    ⟨s, [], some (Err.wrongApiCallSequence "stop_streaming() failed. UVC device is not streaming!")⟩
  else
    ⟨{ s with is_streaming := false },
      [Event.flagStreaming false, Event.stopCallbacks,
       Event.timestampReset, Event.raiseStreamingChanges false],
      none⟩

/-- State of a `hid_sensor`: `_is_opened`, `_is_streaming`, active streams,
`_configured_profiles`, and its `frame_source` state. -/
structure HidState where
  is_opened : Bool
  is_streaming : Bool
  active : List Profile
  configured : List Profile
  source_callback : Option Nat
  source_parsers : Bool
deriving DecidableEq, Repr

/-- A `hid_sensor` in the Closed state. -/
def closedHid : HidState :=
  ⟨false, false, [], [], none, false⟩

/-- The frame-source callback visible through
`sensor_base::get_frames_callback` for the HID sensor. -/
def HidState.get_frames_callback (s : HidState) : Option Nat :=
  s.source_callback

/-- Embeds `hid_sensor::open` (sensor.cpp:873): sequence-error guards, then
configure the requested profiles, `_hid_device->open`, `_is_opened = true`,
`set_active_streams(requests)`. -/
def hid_open (s : HidState) (reqs : List Profile) : StepR HidState :=
  if s.is_streaming then
    ⟨s, [], some (Err.wrongApiCallSequence "open(...) failed. Hid device is streaming!")⟩
  else if s.is_opened then
    ⟨s, [], some (Err.wrongApiCallSequence "Hid device is already opened!")⟩
  else
    ⟨{ s with configured := reqs, is_opened := true, active := reqs }, [Event.hidOpen], none⟩

/-- Embeds `hid_sensor::close` (sensor.cpp:899): sequence-error guards, then
`_hid_device->close`, clear configured profiles, `_is_opened = false`, clear
active streams. -/
def hid_close (s : HidState) : StepR HidState :=
  if s.is_streaming then
    ⟨s, [], some (Err.wrongApiCallSequence "close() failed. Hid device is streaming!")⟩
  else if !s.is_opened then
    ⟨s, [], some (Err.wrongApiCallSequence "close() failed. Hid device was not opened!")⟩
  else
    ⟨{ s with configured := [], is_opened := false, active := [] }, [Event.hidClose], none⟩

/-- Embeds `hid_sensor::start` (sensor.cpp:933): sequence-error guards, then
callback installation, `_source.init`, the pre-streaming notification,
`start_capture`, and only after that `_is_streaming = true`. -/
def hid_start (s : HidState) (cb : Nat) : StepR HidState :=
  if s.is_streaming then
    ⟨s, [], some (Err.wrongApiCallSequence "start_streaming(...) failed. Hid device is already streaming!")⟩
  else if !s.is_opened then
    ⟨s, [], some (Err.wrongApiCallSequence "start_streaming(...) failed. Hid device was not opened!")⟩
  else
    ⟨{ s with source_callback := some cb, source_parsers := true, is_streaming := true },
      [Event.setCallback, Event.sourceInit, Event.raiseStreamingChanges true,
       Event.startCapture, Event.flagStreaming true],
      none⟩

/-- Embeds `hid_sensor::stop` (sensor.cpp:1029): sequence-error guard, then
`stop_capture` (before the flag flip), `_is_streaming = false`, source flush,
source reset (clears the callback and parser map), both timestamp reader
resets, and the post-stop notification. -/
def hid_stop (s : HidState) : StepR HidState :=
  if !s.is_streaming then
    ⟨s, [], some (Err.wrongApiCallSequence "stop_streaming() failed. Hid device is not streaming!")⟩
  else
    ⟨{ s with is_streaming := false, source_callback := none, source_parsers := false },
      [Event.stopCapture, Event.flagStreaming false, Event.sourceFlush, Event.sourceReset,
       Event.timestampReset, Event.timestampReset, Event.raiseStreamingChanges false],
      none⟩

/-! Frame production: payload copy (sensor.cpp:263, 454-501) -/

/-- rs2_format enum value for MJPEG. -/
def RS2_FORMAT_MJPEG : Nat := 22

/-- rs2_format enum value for Y12I. -/
def RS2_FORMAT_Y12I : Nat := 24

/-- rs2_format enum value for Z16H. -/
def RS2_FORMAT_Z16H : Nat := 26

/-- Modelled from the spec: `compute_frame_expected_size` is declared outside
src/ (sensor.h); the spec says the expected payload size is computed from the
declared width, height and bits-per-pixel, i.e. `width*height*bpp/8`. -/
def compute_frame_expected_size (width height bpp : Nat) : Nat :=
  width * height * bpp / 8

/-- A raw transport buffer (`platform::frame_object`): its reported size and
its bytes (by flat index). -/
structure FrameObject where
  frame_size : Nat
  pixels : Nat → Nat

/-- The row loop of `sensor_base::align_width_to_64` (sensor.cpp:269-274):
append, for each row `j` below the bound, the `bw` logical bytes of that row
read at input stride `actual`. -/
def align_rows (pix : Nat → Nat) (bw actual : Nat) : Nat → List Nat
  | 0 => []
  | j + 1 => align_rows pix bw actual j ++ (List.range bw).map (fun k => pix (j * actual + k))

/-- Embeds `sensor_base::align_width_to_64` (sensor.cpp:263): strip row
padding from a 64-byte-aligned buffer.  `factor = bpp >> 3`, logical row
width `bytes_in_width = width*factor`, padded input stride
`(bytes_in_width/64 + 1)*64`. -/
def align_width_to_64 (width height bpp : Nat) (pix : Nat → Nat) : List Nat :=
  let factor := bpp / 8
  let bytes_in_width := width * factor
  let actual_input_bytes_in_width := (bytes_in_width / 64 + 1) * 64
  align_rows pix bytes_in_width actual_input_bytes_in_width height

/-- Embeds the payload-copy logic of the `uvc_sensor::open` frame callback
(sensor.cpp:420-486): expected size is 64 for motion profiles, else
`compute_frame_expected_size`, overridden by the reported size for the
compressed formats MJPEG and Z16H; if the logical row width is not a multiple
of 64 and the buffer is larger than expected, strip row padding with
`align_width_to_64`; otherwise flat-copy `expected` bytes, where for Y12I a
buffer of exactly 3/4 of the computed size replaces the expected size first. -/
def uvc_copy_bytes (format width height bpp : Nat) (isMotion : Bool) (fo : FrameObject) : List Nat :=
  let expected0 := if isMotion then 64 else compute_frame_expected_size width height bpp
  let expected := if format = RS2_FORMAT_MJPEG ∨ format = RS2_FORMAT_Z16H then fo.frame_size else expected0
  if (width * bpp / 8) % 64 ≠ 0 ∧ fo.frame_size > expected then
    align_width_to_64 width height bpp fo.pixels
  else
    let expected2 :=
      if format = RS2_FORMAT_Y12I ∧ expected / 4 * 3 = fo.frame_size then fo.frame_size
      else expected
    (List.range expected2).map fo.pixels

/-! Device-callback drop behavior (sensor.cpp:400-529, 949-1025) -/

/-- Steps a device callback can take, in program order.  `writeFrameData t`
records the `memcpy` into `frame->get_frame_data()`, with `t = none` when the
frame pointer being dereferenced is the null allocation result. -/
inductive CbAct
  | logDropUnrequested
  | logDropInactive
  | allocFrame
  | writeFrameData (target : Option Nat)
  | logDropNull
  | continuation
  | invokeUser
deriving DecidableEq, Repr

/-- Embeds the capture callback installed by `hid_sensor::start`
(sensor.cpp:949-1025): drop unrequested custom-GPIO frames; drop when
`_is_streaming` is false; otherwise allocate a motion frame and `memcpy` the
payload into it (sensor.cpp:1002) BEFORE the null check (sensor.cpp:1005),
then drop on null, else deliver to the user callback. -/
def hid_capture_cb (isCustomUnrequested streaming : Bool) (allocResult : Option Nat) : List CbAct :=
  if isCustomUnrequested then
    [CbAct.logDropUnrequested]
  else if !streaming then
    [CbAct.logDropInactive]
  else
    CbAct.allocFrame :: CbAct.writeFrameData allocResult ::
      match allocResult with
      | none => [CbAct.logDropNull]
      | some _ => [CbAct.invokeUser]

/-- Embeds the frame callback installed by `uvc_sensor::open`
(sensor.cpp:400-529): drop when `_is_streaming` is false; allocate; on null
allocation log and return; else copy the payload, call the continuation, and
invoke the user callback. -/
def uvc_frame_cb (streaming : Bool) (allocResult : Option Nat) : List CbAct :=
  if !streaming then
    [CbAct.logDropInactive]
  else
    CbAct.allocFrame ::
      match allocResult with
      | none => [CbAct.logDropNull]
      | some f => [CbAct.writeFrameData (some f), CbAct.continuation, CbAct.invokeUser]

/-! Frame source (source.cpp) -/

/-- rs2_extension frame categories relevant to `frame_source`; `debugExt`
stands for an extension value outside the supported set. -/
inductive Rs2Ext
  | videoFrame
  | compositeFrame
  | points
  | depthFrame
  | disparityFrame
  | motionFrame
  | poseFrame
  | debugExt
deriving DecidableEq, Repr

/-- The pool keys created by `frame_source::init` (source.cpp:58-69). -/
def supported_extensions : List Rs2Ext :=
  [Rs2Ext.videoFrame, Rs2Ext.compositeFrame, Rs2Ext.points, Rs2Ext.depthFrame,
   Rs2Ext.disparityFrame, Rs2Ext.motionFrame, Rs2Ext.poseFrame]

/-- A per-type frame pool; `exhausted` means the in-flight bound is reached. -/
structure Archive where
  exhausted : Bool

/-- Modelled from the spec: `frame_archive::alloc_and_track` lives in
archive.cpp, which is not under src/.  Per the spec it "returns a new tracked
frame or a null result if ... the pool is exhausted", never blocking and
never throwing; the frame is represented by its requested size. -/
def alloc_and_track (a : Archive) (size : Nat) : Option Nat :=
  if a.exhausted then none else some size

/-- Embeds `frame_source::alloc_frame` (source.cpp:91): look the type up in
the archive map; if absent, throw `wrong_api_call_sequence_exception`
("Requested frame type is not supported!"); else delegate to
`alloc_and_track`. -/
def alloc_frame (archiveTypes : List Rs2Ext) (pools : Rs2Ext → Archive) (t : Rs2Ext)
    (size : Nat) : Except Err (Option Nat) :=
  if archiveTypes.contains t then
    Except.ok (alloc_and_track (pools t) size)
  else
    Except.error (Err.wrongApiCallSequence "Requested frame type is not supported!")

/-- Steps of `frame_source::invoke_callback` in program order. -/
inductive InvEv
  | swapOut
  | userCall (f : Option Nat)
  | logUserError
deriving DecidableEq, Repr

/-- Behavior of the registered user frame handler. -/
inductive UserCb
  | ok
  | throws
deriving DecidableEq, Repr

/-- The user handler as a fallible call. -/
def user_handler : UserCb → Except String Unit
  | .ok => Except.ok ()
  | .throws => Except.error "user callback threw"

/-- Result of `invoke_callback`: the holder's frame pointer after the call
and the recorded steps. -/
structure InvokeResult where
  holder : Option Nat
  events : List InvEv
deriving DecidableEq, Repr

/-- Embeds `frame_source::invoke_callback` (source.cpp:117): when the holder
carries a frame with an owner, and a callback is registered, swap the frame
pointer out of the holder into a local, call the user handler on it inside a
try block, and catch-and-log any exception; the function itself returns
normally in every case, which the `Except` result type records as always
`ok`. -/
def invoke_callback (cb : Option UserCb) (frame : Option Nat) (ownerOk : Bool) :
    Except String InvokeResult :=
  if frame.isSome && ownerOk then
    match cb with
    | none => Except.ok ⟨frame, []⟩
    | some u =>
      match user_handler u with
      | .ok _ => Except.ok ⟨none, [InvEv.swapOut, InvEv.userCall frame]⟩
      | .error _ => Except.ok ⟨none, [InvEv.swapOut, InvEv.userCall frame, InvEv.logUserError]⟩
  else
    Except.ok ⟨frame, []⟩

/-! Synthetic sensor: processing-block option registration (sensor.cpp:1320) -/

/-- Embeds `synthetic_sensor::register_processing_block_options`
(sensor.cpp:1320-1334): for each option `opt` of the block, register it only
when `std::none_of(begin(options), end(options), o == opt)` holds — the scan
runs over the block's OWN `options` list, not the sensor's registry.  Returns
the options actually registered, in order. -/
def register_processing_block_options (pbOptions : List Nat) : List Nat :=
  pbOptions.foldl
    (fun acc opt => if pbOptions.all (fun o => o ≠ opt) then acc ++ [opt] else acc) []

/-! Power reference counting runner (for the interleaving claims) -/

/-- One power-reference operation. -/
inductive PowerOp
  | acq
  | rel
deriving DecidableEq, Repr

/-- Run a sequence of `acquire_power`/`release_power` calls from a given
reference count, collecting the trace (an acquire that throws is recorded and
the run continues, as each caller catches independently). -/
def run_power_ops (dev : UvcDevice) : List PowerOp → Int → Int × List Event
  | [], c => (c, [])
  | .acq :: rest, c =>
    let a := acquire_power dev c
    let t := run_power_ops dev rest a.1
    (t.1, a.2.1 ++ t.2)
  | .rel :: rest, c =>
    let r := release_power dev c
    let t := run_power_ops dev rest r.1
    (t.1, r.2 ++ t.2)

/-- Number of `set_power_state(D0)` (power-on) calls in a trace. -/
def power_on_count (evs : List Event) : Nat :=
  evs.countP (fun e => decide (e = Event.setPowerState true))

/-- Number of `set_power_state(D3)` (power-off) calls in a trace. -/
def power_off_count (evs : List Event) : Nat :=
  evs.countP (fun e => decide (e = Event.setPowerState false))

/-- A benign UVC device oracle: no transport call fails, no extension units. -/
def okDev : UvcDevice :=
  ⟨fun _ => false, false, false, false, []⟩

/-- First index of an event in a trace. -/
def firstIdx (l : List Event) (e : Event) : Option Nat :=
  l.findIdx? (fun x => decide (x = e))

/-- `precedes l a b` holds when both events occur in `l` and the first
occurrence of `a` is strictly before the first occurrence of `b`. -/
def precedes (l : List Event) (a b : Event) : Bool :=
  match firstIdx l a, firstIdx l b with
  | some i, some j => decide (i < j)
  | _, _ => false

/-! Helper lemmas -/

/-- When no commit fails, the commit loop commits every request in order and
returns no error. -/
theorem commit_loop_ok (dev : UvcDevice) :
    ∀ (l : List Profile) (acc : List Nat),
      (∀ p ∈ l, dev.commitFails p.backend = false) →
      commit_loop dev l acc
        = (l.map (fun p => Event.probeAndCommit p.backend),
           acc ++ l.map (fun p => p.backend), none) := by
  intro l
  induction l with
  | nil => intro acc _; simp [commit_loop]
  | cons a l ih =>
    intro acc h
    have ha : dev.commitFails a.backend = false := h a (List.mem_cons_self a l)
    have hl : ∀ p ∈ l, dev.commitFails p.backend = false :=
      fun p hp => h p (List.mem_cons_of_mem a hp)
    simp [commit_loop, ha, ih (acc ++ [a.backend]) hl]

/-- When the first failing request is `b`, the commit loop commits every
request before it, then closes exactly those committed profiles, in order,
and re-raises. -/
theorem commit_loop_fail (dev : UvcDevice) :
    ∀ (as : List Profile) (b : Profile) (cs : List Profile) (acc : List Nat),
      (∀ p ∈ as, dev.commitFails p.backend = false) →
      dev.commitFails b.backend = true →
      commit_loop dev (as ++ b :: cs) acc
        = (as.map (fun p => Event.probeAndCommit p.backend)
             ++ (acc ++ as.map (fun p => p.backend)).map Event.closeProfile,
           acc ++ as.map (fun p => p.backend),
           some (Err.runtimeError "probe_and_commit failed")) := by
  intro as
  induction as with
  | nil => intro b cs acc _ hb; simp [commit_loop, hb]
  | cons a as ih =>
    intro b cs acc h hb
    have ha : dev.commitFails a.backend = false := h a (List.mem_cons_self a as)
    have hl : ∀ p ∈ as, dev.commitFails p.backend = false :=
      fun p hp => h p (List.mem_cons_of_mem a hp)
    simp [commit_loop, ha, ih b cs (acc ++ [a.backend]) hl hb]

/-- C1: For every UVC or HID sensor state among Closed, Opened, Streaming:
`open` while Opened or Streaming, `start` while Streaming or Closed, `stop`
while not Streaming, and `close` while Streaming or Closed each propagate a
`wrong_api_call_sequence` error and leave the whole sensor state (in
particular `_is_opened`, `_is_streaming` and the active-stream set)
unchanged; and along the legal sequence Closed -open- Opened -start-
Streaming -stop- Opened -close- Closed, with valid requests and a
non-failing transport, no operation raises any error. -/
theorem C1_state_machine (dev : UvcDevice) (s : UvcState) (t : HidState)
    (reqs : List Profile) (cb : Nat) :
    ((s.is_opened = true ∨ s.is_streaming = true) →
        seqErr (uvc_open dev s reqs).err = true ∧ (uvc_open dev s reqs).state = s)
    ∧ ((t.is_opened = true ∨ t.is_streaming = true) →
        seqErr (hid_open t reqs).err = true ∧ (hid_open t reqs).state = t)
    ∧ ((s.is_streaming = true ∨ s.is_opened = false) →
        seqErr (uvc_start s cb).err = true ∧ (uvc_start s cb).state = s)
    ∧ ((t.is_streaming = true ∨ t.is_opened = false) →
        seqErr (hid_start t cb).err = true ∧ (hid_start t cb).state = t)
    ∧ (s.is_streaming = false →
        seqErr (uvc_stop s).err = true ∧ (uvc_stop s).state = s)
    ∧ (t.is_streaming = false →
        seqErr (hid_stop t).err = true ∧ (hid_stop t).state = t)
    ∧ ((s.is_streaming = true ∨ s.is_opened = false) →
        seqErr (uvc_close dev s).err = true ∧ (uvc_close dev s).state = s)
    ∧ ((t.is_streaming = true ∨ t.is_opened = false) →
        seqErr (hid_close t).err = true ∧ (hid_close t).state = t)
    ∧ (s.is_opened = false → s.is_streaming = false →
        verify_supported_requests reqs = none →
        (∀ p ∈ reqs, dev.commitFails p.backend = false) →
        dev.powerOnFails = false → dev.streamOnFails = false →
        (uvc_open dev s reqs).err = none
        ∧ (uvc_start (uvc_open dev s reqs).state cb).err = none
        ∧ (uvc_stop (uvc_start (uvc_open dev s reqs).state cb).state).err = none
        ∧ (uvc_close dev (uvc_stop (uvc_start (uvc_open dev s reqs).state cb).state).state).err = none)
    ∧ (t.is_opened = false → t.is_streaming = false →
        (hid_open t reqs).err = none
        ∧ (hid_start (hid_open t reqs).state cb).err = none
        ∧ (hid_stop (hid_start (hid_open t reqs).state cb).state).err = none
        ∧ (hid_close (hid_stop (hid_start (hid_open t reqs).state cb).state).state).err = none) := by
  refine ⟨?_, ?_, ?_, ?_, ?_, ?_, ?_, ?_, ?_, ?_⟩
  · rintro (h | h) <;> cases hs : s.is_streaming <;>
      simp_all [uvc_open, seqErr, Err.isWrongSeq]
  · rintro (h | h) <;> cases hs : t.is_streaming <;>
      simp_all [hid_open, seqErr, Err.isWrongSeq]
  · rintro (h | h) <;> cases hs : s.is_streaming <;>
      simp_all [uvc_start, seqErr, Err.isWrongSeq]
  · rintro (h | h) <;> cases hs : t.is_streaming <;>
      simp_all [hid_start, seqErr, Err.isWrongSeq]
  · intro h; simp [uvc_stop, h, seqErr, Err.isWrongSeq]
  · intro h; simp [hid_stop, h, seqErr, Err.isWrongSeq]
  · rintro (h | h) <;> cases hs : s.is_streaming <;>
      simp_all [uvc_close, seqErr, Err.isWrongSeq]
  · rintro (h | h) <;> cases hs : t.is_streaming <;>
      simp_all [hid_close, seqErr, Err.isWrongSeq]
  · intro ho hs hv hc hpow hso
    have hopen : (uvc_open dev s reqs).err = none
        ∧ (uvc_open dev s reqs).state.is_opened = true
        ∧ (uvc_open dev s reqs).state.is_streaming = false := by
      by_cases hu : s.user_count = 0 <;>
        simp [uvc_open, ho, hs, hv, hso, hpow, hu, acquire_power,
              commit_loop_ok dev reqs [] hc]
    refine ⟨hopen.1, ?_, ?_, ?_⟩ <;>
      simp [uvc_start, uvc_stop, uvc_close, hopen.2.1, hopen.2.2]
  · intro ho hs
    simp [hid_open, hid_start, hid_stop, hid_close, ho, hs]

/-- C1 witness: the state-machine facts at a concrete Closed UVC sensor, a
concrete Opened HID sensor and one concrete request. -/
theorem C1_state_machine_witness :
    (seqErr (uvc_stop closedUvc).err = true ∧ (uvc_stop closedUvc).state = closedUvc)
    ∧ (seqErr (hid_open ⟨true, false, [], [], none, false⟩ [⟨1, 30, 0⟩]).err = true
        ∧ (hid_open ⟨true, false, [], [], none, false⟩ [⟨1, 30, 0⟩]).state
            = ⟨true, false, [], [], none, false⟩)
    ∧ (uvc_open okDev closedUvc [⟨1, 30, 0⟩]).err = none
    ∧ (hid_open closedHid [⟨1, 30, 0⟩]).err = none := by
  have h := C1_state_machine okDev closedUvc ⟨true, false, [], [], none, false⟩ [⟨1, 30, 0⟩] 7
  have h2 := C1_state_machine okDev closedUvc closedHid [⟨1, 30, 0⟩] 7
  refine ⟨h.2.2.2.2.1 rfl, h.2.1 (Or.inl rfl), ?_, ?_⟩
  · exact (h2.2.2.2.2.2.2.2.2.1 rfl rfl (by decide) (by decide) rfl rfl).1
  · exact (h2.2.2.2.2.2.2.2.2.2 rfl rfl).1

/-- A concrete Streaming UVC sensor state. -/
def streamingUvc : UvcState :=
  ⟨true, true, [⟨1, 30, 0⟩], [0], true, 1, some 3, true⟩

/-- A concrete Streaming HID sensor state. -/
def streamingHid : HidState :=
  ⟨true, true, [⟨5, 200, 0⟩], [⟨5, 200, 0⟩], some 3, true⟩

/-- C2: evaluation of the device callbacks at the drop conditions.  The UVC
frame callback drops a null allocation without touching it, but the HID
capture callback performs the payload `memcpy` through the null allocation
result (`writeFrameData none`) before its null check — the write the claim
rules out does happen (sensor.cpp:1001-1008).  Streaming-inactive callbacks
are dropped without allocating, and the user callback is never invoked on
any drop path. -/
theorem C2_code_evaluation :
    hid_capture_cb false true none
        = [CbAct.allocFrame, CbAct.writeFrameData none, CbAct.logDropNull]
    ∧ CbAct.writeFrameData none ∈ hid_capture_cb false true none
    ∧ CbAct.invokeUser ∉ hid_capture_cb false true none
    ∧ uvc_frame_cb true none = [CbAct.allocFrame, CbAct.logDropNull]
    ∧ uvc_frame_cb false none = [CbAct.logDropInactive]
    ∧ hid_capture_cb false false none = [CbAct.logDropInactive] := by
  decide

/-- C3 counterexample: in the trace of `hid_sensor::stop` from a Streaming
state, the transport stop (`stop_capture`) strictly precedes the
streaming-flag flip, so the claim "the streaming flag is flipped to false
first, then the transport is instructed to stop" is false for the HID
sensor. -/
theorem C3_counterexample :
    precedes (hid_stop streamingHid).events Event.stopCapture (Event.flagStreaming false) = true
    ∧ precedes (hid_stop streamingHid).events (Event.flagStreaming false) Event.stopCapture = false := by
  decide

/-- C3 amended: for every `stop()` from Streaming, the UVC sensor flips the
streaming flag first, then stops the transport, then resets the timestamp
reader, then fires the post-stop notification; the HID sensor instead stops
the transport (`stop_capture`) first, then flips the flag, then flushes and
resets the frame source, resets both timestamp readers, and fires the
post-stop notification. -/
theorem C3_stop_order_amended (u : UvcState) (s : HidState)
    (hu : u.is_streaming = true) (hs : s.is_streaming = true) :
    (uvc_stop u).events
        = [Event.flagStreaming false, Event.stopCallbacks,
           Event.timestampReset, Event.raiseStreamingChanges false]
    ∧ (hid_stop s).events
        = [Event.stopCapture, Event.flagStreaming false, Event.sourceFlush,
           Event.sourceReset, Event.timestampReset, Event.timestampReset,
           Event.raiseStreamingChanges false] := by
  simp [uvc_stop, hid_stop, hu, hs]

/-- C3 witness: the amended stop orderings at concrete Streaming states. -/
theorem C3_stop_order_amended_witness :
    (uvc_stop streamingUvc).events
        = [Event.flagStreaming false, Event.stopCallbacks,
           Event.timestampReset, Event.raiseStreamingChanges false]
    ∧ (hid_stop streamingHid).events
        = [Event.stopCapture, Event.flagStreaming false, Event.sourceFlush,
           Event.sourceReset, Event.timestampReset, Event.timestampReset,
           Event.raiseStreamingChanges false] :=
  C3_stop_order_amended streamingUvc streamingHid rfl rfl

/-- C4 counterexample: `frame_source::alloc_frame` on a frame type absent
from the archive map raises `wrong_api_call_sequence` (source.cpp:94), so the
claim that an unsupported type yields a null result without an error is
false. -/
theorem C4_counterexample :
    alloc_frame supported_extensions (fun _ => ⟨false⟩) Rs2Ext.debugExt 10
      = Except.error (Err.wrongApiCallSequence "Requested frame type is not supported!") := by
  rfl

/-- C4 amended: for a supported frame type, `alloc_frame` delegates to
`alloc_and_track` and returns null exactly when the pool is exhausted,
raising no error; for an unsupported type it raises a
`wrong_api_call_sequence` error instead of returning null. -/
theorem C4_alloc_amended (archiveTypes : List Rs2Ext) (pools : Rs2Ext → Archive)
    (t : Rs2Ext) (size : Nat) :
    (archiveTypes.contains t = true →
        alloc_frame archiveTypes pools t size = Except.ok (alloc_and_track (pools t) size)
        ∧ (alloc_and_track (pools t) size = none ↔ (pools t).exhausted = true))
    ∧ (archiveTypes.contains t = false →
        alloc_frame archiveTypes pools t size
          = Except.error (Err.wrongApiCallSequence "Requested frame type is not supported!")) := by
  constructor
  · intro h
    have h' : t ∈ archiveTypes := by simpa using h
    refine ⟨by simp [alloc_frame, h'], ?_⟩
    cases hx : (pools t).exhausted <;> simp [alloc_and_track, hx]
  · intro h
    have h' : t ∉ archiveTypes := by simpa using h
    simp [alloc_frame, h']

/-- C4 witness: allocation on an exhausted motion-frame pool returns a null
result with no error raised. -/
theorem C4_alloc_amended_witness :
    alloc_frame supported_extensions (fun _ => Archive.mk true) Rs2Ext.motionFrame 4
      = Except.ok (alloc_and_track (Archive.mk true) 4)
    ∧ (alloc_and_track (Archive.mk true) 4 = none ↔ (Archive.mk true).exhausted = true) :=
  (C4_alloc_amended supported_extensions (fun _ => Archive.mk true) Rs2Ext.motionFrame 4).1
    (by decide)

/-- C8: evaluation of `synthetic_sensor::register_processing_block_options`
at a converter exposing options that the sensor does not yet support.  The
`none_of` test scans the block's own option list, where the candidate option
always occurs, so nothing is ever registered — contradicting the claim that
each absent converter option becomes supported on the sensor. -/
theorem C8_code_evaluation :
    register_processing_block_options [5] = []
    ∧ register_processing_block_options [3, 7, 9] = [] := by
  decide

/-- C9: `frame_source::invoke_callback` always returns normally (never
propagates an exception), and whenever the holder carries an owned frame and
a user callback is registered, it swaps the frame out of the holder (holder
ends null) and only then calls the user handler, appending a caught-and-
logged record when the handler throws. -/
theorem C9_invoke_callback (cb : Option UserCb) (fr : Option Nat) (ownerOk : Bool) :
    (∃ r, invoke_callback cb fr ownerOk = Except.ok r)
    ∧ (∀ u, cb = some u → fr.isSome = true → ownerOk = true →
        invoke_callback cb fr ownerOk
          = Except.ok ⟨none, InvEv.swapOut :: InvEv.userCall fr ::
              (if u = UserCb.throws then [InvEv.logUserError] else [])⟩) := by
  constructor
  · unfold invoke_callback
    split
    · cases cb with
      | none => exact ⟨_, rfl⟩
      | some u => cases u <;> exact ⟨_, rfl⟩
    · exact ⟨_, rfl⟩
  · rintro u rfl hfr hok
    cases u <;> simp [invoke_callback, hfr, hok, user_handler]

/-- C9 witness: a throwing user handler on an owned frame is caught and
logged after the ownership swap, and the call returns normally. -/
theorem C9_invoke_callback_witness :
    invoke_callback (some UserCb.throws) (some 7) true
      = Except.ok ⟨none, [InvEv.swapOut, InvEv.userCall (some 7), InvEv.logUserError]⟩ := by
  have h := (C9_invoke_callback (some UserCb.throws) (some 7) true).2 UserCb.throws rfl rfl rfl
  simpa using h

/-- C10: after `hid_sensor::stop` from Streaming the frame source has been
flushed and reset, so `get_frames_callback` is null and the metadata-parser
registry is detached; `uvc_sensor::stop` performs no source flush or reset
and leaves the installed callback and parser registry untouched. -/
theorem C10_stop_source_reset (s : HidState) (u : UvcState)
    (hs : s.is_streaming = true) (hu : u.is_streaming = true) :
    (hid_stop s).err = none
    ∧ (hid_stop s).state.get_frames_callback = none
    ∧ (hid_stop s).state.source_parsers = false
    ∧ Event.sourceFlush ∈ (hid_stop s).events
    ∧ Event.sourceReset ∈ (hid_stop s).events
    ∧ (uvc_stop u).err = none
    ∧ (uvc_stop u).state.get_frames_callback = u.get_frames_callback
    ∧ (uvc_stop u).state.source_parsers = u.source_parsers
    ∧ Event.sourceFlush ∉ (uvc_stop u).events
    ∧ Event.sourceReset ∉ (uvc_stop u).events := by
  simp [hid_stop, uvc_stop, hs, hu, HidState.get_frames_callback, UvcState.get_frames_callback]

/-- C10 witness: the stop effects at concrete Streaming states — the HID
sensor's callback is cleared, the UVC sensor's callback survives. -/
theorem C10_stop_source_reset_witness :
    (hid_stop streamingHid).state.get_frames_callback = none
    ∧ (uvc_stop streamingUvc).state.get_frames_callback = streamingUvc.get_frames_callback
    ∧ Event.sourceFlush ∉ (uvc_stop streamingUvc).events := by
  have h := C10_stop_source_reset streamingHid streamingUvc rfl rfl
  exact ⟨h.2.1, h.2.2.2.2.2.2.1, h.2.2.2.2.2.2.2.2.1⟩

/-- Running a concatenation of power operations runs the two halves in
sequence and concatenates their traces. -/
theorem run_power_ops_append (dev : UvcDevice) (l1 l2 : List PowerOp) (c : Int) :
    run_power_ops dev (l1 ++ l2) c
      = ((run_power_ops dev l2 (run_power_ops dev l1 c).1).1,
         (run_power_ops dev l1 c).2 ++ (run_power_ops dev l2 (run_power_ops dev l1 c).1).2) := by
  induction l1 generalizing c with
  | nil => simp [run_power_ops]
  | cons op l1 ih => cases op <;> simp [run_power_ops, ih]

/-- Acquires from a positive count only increment the count and touch no
transport. -/
theorem run_acq_silent (dev : UvcDevice) :
    ∀ (k : Nat) (c : Int), 1 ≤ c →
      run_power_ops dev (List.replicate k PowerOp.acq) c = (c + k, []) := by
  intro k
  induction k with
  | zero => intro c _; simp [run_power_ops]
  | succ n ih =>
    intro c hc
    have hc0 : ¬c = 0 := by omega
    have ihc := ih (c + 1) (by omega)
    simp [List.replicate_succ, run_power_ops, acquire_power, hc0, ihc, Prod.ext_iff]
    omega

/-- Releases from a count strictly above the number of releases only
decrement the count and touch no transport. -/
theorem run_rel_silent (dev : UvcDevice) :
    ∀ (k : Nat) (c : Int), (k : Int) + 1 ≤ c →
      run_power_ops dev (List.replicate k PowerOp.rel) c = (c - k, []) := by
  intro k
  induction k with
  | zero => intro c _; simp [run_power_ops]
  | succ n ih =>
    intro c hc
    have hc1 : ¬c = 1 := by omega
    have ihc := ih (c - 1) (by omega)
    simp [List.replicate_succ, run_power_ops, release_power, hc1, ihc, Prod.ext_iff]
    omega

/-- Extension-unit re-initialization events are neither power-on nor
power-off transitions. -/
theorem power_count_initXus (xs : List Nat) :
    power_on_count (xs.map Event.initXu) = 0
    ∧ power_off_count (xs.map Event.initXu) = 0 := by
  induction xs with
  | nil => simp [power_on_count, power_off_count]
  | cons x xs ih =>
    simp only [List.map_cons, power_on_count, power_off_count, List.countP_cons] at ih ⊢
    simp [ih.1, ih.2]

/-- C5 counterexample: the interleaving acquire, release, acquire, release
of N = 2 acquires and N = 2 releases (with a non-failing transport) issues
TWO power-on and TWO power-off transitions, so "exactly one power-on ...
for every interleaving of N acquire_power and N release_power calls" is
false. -/
theorem C5_counterexample :
    power_on_count (run_power_ops okDev [PowerOp.acq, PowerOp.rel, PowerOp.acq, PowerOp.rel] 0).2 = 2
    ∧ power_off_count (run_power_ops okDev [PowerOp.acq, PowerOp.rel, PowerOp.acq, PowerOp.rel] 0).2 = 2 := by
  decide

/-- C5 amended: for N acquires FOLLOWED BY N releases (N at least 1) on a
non-failing transport, exactly one power-on is issued (on the 0 to 1 count
transition, together with extension-unit re-initialization) and exactly one
power-off (on the 1 to 0 transition), and the count returns to 0; if the
transport power-on call throws, the reference count is rolled back to its
prior value and the error re-raised; a transport power-off failure is logged
and the call still returns normally (release_power has no error result). -/
theorem C5_power_refcount_amended (dev : UvcDevice) (N : Nat) (hN : 1 ≤ N)
    (hOn : dev.powerOnFails = false) (hOff : dev.powerOffFails = false) :
    (power_on_count (run_power_ops dev
        (List.replicate N PowerOp.acq ++ List.replicate N PowerOp.rel) 0).2 = 1
      ∧ power_off_count (run_power_ops dev
          (List.replicate N PowerOp.acq ++ List.replicate N PowerOp.rel) 0).2 = 1
      ∧ (run_power_ops dev
          (List.replicate N PowerOp.acq ++ List.replicate N PowerOp.rel) 0).1 = 0)
    ∧ (∀ d : UvcDevice, d.powerOnFails = true →
        (acquire_power d 0).1 = 0 ∧ (acquire_power d 0).2.2.isSome = true)
    ∧ (∀ d : UvcDevice, d.powerOffFails = true →
        release_power d 1 = (0, [Event.logError])) := by
  refine ⟨?_, ?_, ?_⟩
  · obtain ⟨m, rfl⟩ : ∃ m, N = m + 1 := ⟨N - 1, by omega⟩
    have hacq : run_power_ops dev (List.replicate (m + 1) PowerOp.acq) 0
        = ((1 + m : Int), Event.setPowerState true :: dev.xus.map Event.initXu) := by
      rw [List.replicate_succ]
      simp [run_power_ops, acquire_power, hOn, run_acq_silent dev m 1 (by omega), Prod.ext_iff]
    have hrel : run_power_ops dev (List.replicate (m + 1) PowerOp.rel) ((1 + m : Int))
        = (0, [Event.setPowerState false]) := by
      rw [List.replicate_succ']
      rw [run_power_ops_append]
      rw [run_rel_silent dev m (1 + m) (by omega)]
      have h1 : (1 : Int) + m - m = 1 := by omega
      simp [h1, run_power_ops, release_power, hOff]
    rw [run_power_ops_append, hacq, hrel]
    have h1 := (power_count_initXus dev.xus).1
    have h2 := (power_count_initXus dev.xus).2
    simp only [power_on_count, power_off_count, List.countP_append, List.countP_cons] at h1 h2 ⊢
    simp at h1 h2 ⊢
  · intro d hd
    simp [acquire_power, hd]
  · intro d hd
    simp [release_power, hd]

/-- C5 witness: two acquires followed by two releases on a non-failing
device yield exactly one power-on and one power-off, and a failing power-on
leaves the count at 0; a failing power-off still decrements to 0. -/
theorem C5_power_refcount_amended_witness :
    power_on_count (run_power_ops okDev
        (List.replicate 2 PowerOp.acq ++ List.replicate 2 PowerOp.rel) 0).2 = 1
    ∧ (acquire_power ⟨fun _ => false, false, true, true, []⟩ 0).1 = 0
    ∧ release_power ⟨fun _ => false, false, true, true, []⟩ 1 = (0, [Event.logError]) := by
  have h := C5_power_refcount_amended okDev 2 (by decide) rfl rfl
  exact ⟨h.1.1, (h.2.1 ⟨fun _ => false, false, true, true, []⟩ rfl).1,
         h.2.2 ⟨fun _ => false, false, true, true, []⟩ rfl⟩

/-- A device oracle whose `probe_and_commit` fails exactly on backend
profile 1. -/
def commitFailDev : UvcDevice :=
  ⟨fun n => n == 1, false, false, false, []⟩

/-- C6: from a Closed UVC sensor, if committing the profile `b` (after the
successfully committed prefix `as`) throws, every previously committed
profile is closed, in order, before the exception propagates, and the sensor
ends not opened with empty active streams (the power token acquired at entry
is also released); and if `stream_on` fails after all commits succeed, every
committed profile is closed, the source is flushed and reset, power is
released, and the sensor ends not opened with empty active streams, the
error re-raised. -/
theorem C6_open_rollback (dev : UvcDevice) (s : UvcState)
    (hcl : s.is_opened = false) (hst : s.is_streaming = false)
    (hact : s.active = []) (hcount : s.user_count = 0)
    (hpow : dev.powerOnFails = false) (hpoff : dev.powerOffFails = false) :
    (∀ as b cs,
      verify_supported_requests (as ++ b :: cs) = none →
      (∀ p ∈ as, dev.commitFails p.backend = false) →
      dev.commitFails b.backend = true →
      (uvc_open dev s (as ++ b :: cs)).err = some (Err.runtimeError "probe_and_commit failed")
      ∧ (uvc_open dev s (as ++ b :: cs)).state.is_opened = false
      ∧ (uvc_open dev s (as ++ b :: cs)).state.is_streaming = false
      ∧ (uvc_open dev s (as ++ b :: cs)).state.active = []
      ∧ (uvc_open dev s (as ++ b :: cs)).events
          = (Event.setPowerState true :: dev.xus.map Event.initXu)
            ++ ((as.map fun p => Event.probeAndCommit p.backend)
                ++ (as.map fun p => p.backend).map Event.closeProfile)
            ++ [Event.setPowerState false]
      ∧ (∀ p ∈ as, Event.closeProfile p.backend ∈ (uvc_open dev s (as ++ b :: cs)).events))
    ∧ (∀ reqs,
      verify_supported_requests reqs = none →
      (∀ p ∈ reqs, dev.commitFails p.backend = false) →
      dev.streamOnFails = true →
      (uvc_open dev s reqs).err = some (Err.runtimeError "stream_on failed")
      ∧ (uvc_open dev s reqs).state.is_opened = false
      ∧ (uvc_open dev s reqs).state.active = []
      ∧ (uvc_open dev s reqs).state.power = false
      ∧ (uvc_open dev s reqs).events
          = (Event.setPowerState true :: dev.xus.map Event.initXu)
            ++ (reqs.map fun p => Event.probeAndCommit p.backend)
            ++ ((reqs.map fun p => p.backend).map Event.closeProfile
                ++ [Event.sourceFlush, Event.sourceReset, Event.timestampReset]
                ++ [Event.setPowerState false])) := by
  constructor
  · intro as b cs hv hok hb
    have hloop := commit_loop_fail dev as b cs [] hok hb
    have hres : uvc_open dev s (as ++ b :: cs)
        = ⟨{ s with user_count := 0, source_parsers := true },
           (Event.setPowerState true :: dev.xus.map Event.initXu)
             ++ ((as.map fun p => Event.probeAndCommit p.backend)
                 ++ (as.map fun p => p.backend).map Event.closeProfile)
             ++ [Event.setPowerState false],
           some (Err.runtimeError "probe_and_commit failed")⟩ := by
      simp [uvc_open, hst, hcl, hcount, acquire_power, hpow, hv, hloop,
            release_power, hpoff]
    rw [hres]
    refine ⟨rfl, hcl, hst, hact, rfl, ?_⟩
    intro p hp
    have hm : Event.closeProfile p.backend
        ∈ (as.map fun p => p.backend).map Event.closeProfile :=
      List.mem_map_of_mem _ (List.mem_map_of_mem _ hp)
    simp only [List.mem_append]
    exact Or.inl (Or.inr (Or.inr hm))
  · intro reqs hv hok hso
    have hloop := commit_loop_ok dev reqs [] hok
    have hres : uvc_open dev s reqs
        = ⟨{ s with user_count := 0, source_parsers := false,
                    internal_config := (reqs.map fun p => p.backend),
                    power := false, is_opened := false, source_callback := none },
           (Event.setPowerState true :: dev.xus.map Event.initXu)
             ++ (reqs.map fun p => Event.probeAndCommit p.backend)
             ++ ((reqs.map fun p => p.backend).map Event.closeProfile
                 ++ [Event.sourceFlush, Event.sourceReset, Event.timestampReset]
                 ++ [Event.setPowerState false]),
           some (Err.runtimeError "stream_on failed")⟩ := by
      simp [uvc_open, hst, hcl, hcount, acquire_power, hpow, hv, hloop, hso,
            release_power, hpoff]
    rw [hres]
    exact ⟨rfl, rfl, hact, rfl, rfl⟩

/-- C6 witness: with commit failing on the second request's backend profile,
opening a Closed sensor closes the first committed profile before
re-raising. -/
theorem C6_open_rollback_witness :
    (uvc_open commitFailDev closedUvc [⟨1, 30, 0⟩, ⟨2, 30, 1⟩]).err
        = some (Err.runtimeError "probe_and_commit failed")
    ∧ (uvc_open commitFailDev closedUvc [⟨1, 30, 0⟩, ⟨2, 30, 1⟩]).state.is_opened = false
    ∧ Event.closeProfile 0 ∈ (uvc_open commitFailDev closedUvc [⟨1, 30, 0⟩, ⟨2, 30, 1⟩]).events := by
  have h := (C6_open_rollback commitFailDev closedUvc rfl rfl rfl rfl rfl rfl).1
      [⟨1, 30, 0⟩] ⟨2, 30, 1⟩ [] (by decide) (by decide) (by decide)
  exact ⟨h.1, h.2.1, h.2.2.2.2.2 ⟨1, 30, 0⟩ (by decide)⟩

/-- Element `k` of a mapped range, by `getD`. -/
theorem getD_range_map (f : Nat → Nat) (bw k : Nat) (hk : k < bw) :
    ((List.range bw).map f).getD k 0 = f k := by
  rw [List.getD_eq_getElem _ _ (by simpa using hk)]
  simp

/-- The row-extraction loop produces one logical row per input row. -/
theorem align_rows_length (pix : Nat → Nat) (bw actual : Nat) :
    ∀ h, (align_rows pix bw actual h).length = h * bw := by
  intro h
  induction h with
  | zero => simp [align_rows]
  | succ n ih => simp [align_rows, ih, Nat.succ_mul]

/-- Byte `k` of output row `j` is input byte `k` of the row starting at
`j * actual`. -/
theorem align_rows_getD (pix : Nat → Nat) (bw actual : Nat) :
    ∀ h j k, j < h → k < bw →
      (align_rows pix bw actual h).getD (j * bw + k) 0 = pix (j * actual + k) := by
  intro h
  induction h with
  | zero => intro j k hj _; exact absurd hj (Nat.not_lt_zero j)
  | succ n ih =>
    intro j k hj hk
    rcases Nat.lt_or_ge j n with hjn | hjn
    · rw [align_rows, List.getD_append _ _ _ _ ?_]
      · exact ih j k hjn hk
      · rw [align_rows_length]
        calc j * bw + k < j * bw + bw := by omega
          _ = (j + 1) * bw := (Nat.succ_mul j bw).symm
          _ ≤ n * bw := Nat.mul_le_mul_right bw hjn
    · have hj' : j = n := by omega
      subst hj'
      rw [align_rows, List.getD_append_right _ _ _ _ ?_]
      · rw [align_rows_length]
        have hidx : j * bw + k - j * bw = k := by omega
        rw [hidx]
        exact getD_range_map (fun k2 => pix (j * actual + k2)) bw k hk
      · rw [align_rows_length]
        omega

/-- The raw buffer of the C7 counterexample: a Y12I calibration frame whose
reported size is exactly 3/4 of the 32-bit-computed size. -/
def y12iFo : FrameObject := ⟨96, fun i => i⟩

/-- C7 counterexample: a Y12I buffer with width 16, height 2, bpp 32 and
reported size 96 = 3/4 of the expected 128 falls in the claim's "every other
case" (row width 64 is a multiple of 64), yet the copy is 96 bytes, not the
expected `width*height*bpp/8 = 128` — the flat copy uses the size-corrected
value, so the claim as stated is false. -/
theorem C7_counterexample :
    (uvc_copy_bytes RS2_FORMAT_Y12I 16 2 32 false y12iFo).length = 96
    ∧ ¬(uvc_copy_bytes RS2_FORMAT_Y12I 16 2 32 false y12iFo).length = 16 * 2 * 32 / 8 := by
  decide

/-- C7 amended: for a non-compressed format (neither MJPEG nor Z16H) with
byte-aligned bpp, (1) if the reported size exceeds `width*height*bpp/8` and
the logical row width `width*bpp/8` is not a multiple of 64, the copied
frame has exactly `width*height*bpp/8` bytes and, for each row `j` below
`height` and column `k` below `width*bpp/8`, its byte `j*(width*bpp/8)+k`
equals the source byte at the padded stride
`j*((width*bpp/8)/64+1)*64 + k`; (2) in every other case the copy is the
flat byte range of the expected size — except (3) for Y12I with a reported
size of exactly 3/4 of the computed size, where the flat copy is of the
reported size. -/
theorem C7_row_padding_amended (format width height bpp : Nat) (fo : FrameObject)
    (hbpp : bpp % 8 = 0)
    (hfmt1 : format ≠ RS2_FORMAT_MJPEG) (hfmt2 : format ≠ RS2_FORMAT_Z16H) :
    ((width * bpp / 8) % 64 ≠ 0 → fo.frame_size > width * height * bpp / 8 →
      (uvc_copy_bytes format width height bpp false fo).length = width * height * bpp / 8
      ∧ ∀ j k, j < height → k < width * bpp / 8 →
          (uvc_copy_bytes format width height bpp false fo).getD (j * (width * bpp / 8) + k) 0
            = fo.pixels (j * (((width * bpp / 8) / 64 + 1) * 64) + k))
    ∧ (¬((width * bpp / 8) % 64 ≠ 0 ∧ fo.frame_size > width * height * bpp / 8) →
        ¬(format = RS2_FORMAT_Y12I ∧ width * height * bpp / 8 / 4 * 3 = fo.frame_size) →
        uvc_copy_bytes format width height bpp false fo
          = (List.range (width * height * bpp / 8)).map fo.pixels)
    ∧ (format = RS2_FORMAT_Y12I → width * height * bpp / 8 / 4 * 3 = fo.frame_size →
        ¬((width * bpp / 8) % 64 ≠ 0 ∧ fo.frame_size > width * height * bpp / 8) →
        uvc_copy_bytes format width height bpp false fo
          = (List.range fo.frame_size).map fo.pixels) := by
  obtain ⟨q, rfl⟩ : ∃ q, bpp = 8 * q := ⟨bpp / 8, by omega⟩
  have e0 : 8 * q / 8 = q := Nat.mul_div_cancel_left q (by norm_num)
  have e1 : width * (8 * q) / 8 = width * q := by
    rw [show width * (8 * q) = 8 * (width * q) by ring]
    exact Nat.mul_div_cancel_left _ (by norm_num)
  have e2 : width * height * (8 * q) / 8 = width * height * q := by
    rw [show width * height * (8 * q) = 8 * (width * height * q) by ring]
    exact Nat.mul_div_cancel_left _ (by norm_num)
  refine ⟨?_, ?_, ?_⟩
  · intro hrow hsize
    have hbr : uvc_copy_bytes format width height (8 * q) false fo
        = align_width_to_64 width height (8 * q) fo.pixels := by
      simp [uvc_copy_bytes, compute_frame_expected_size, hfmt1, hfmt2, hrow, hsize]
    rw [hbr]
    unfold align_width_to_64
    rw [e0]
    constructor
    · rw [align_rows_length, e2]
      ring
    · intro j k hj hk
      rw [e1] at hk ⊢
      exact align_rows_getD fo.pixels (width * q) ((width * q / 64 + 1) * 64) height j k hj hk
  · intro hnot hny
    simp [uvc_copy_bytes, compute_frame_expected_size, hfmt1, hfmt2, hnot, hny]
  · intro hfy hsz hnot
    subst hfy
    have hm : RS2_FORMAT_Y12I ≠ RS2_FORMAT_MJPEG := by decide
    have hz : RS2_FORMAT_Y12I ≠ RS2_FORMAT_Z16H := by decide
    simp [uvc_copy_bytes, compute_frame_expected_size, hm, hz, hnot, hsz]

/-- The raw buffer of the C7 witness: a padded source larger than the
expected payload. -/
def padFo : FrameObject := ⟨300, fun i => i⟩

/-- C7 witness: the padded-row extraction at format YUYV, width 8, height 2,
bpp 16 — 32 output bytes, with row 1 column 3 read at the 64-byte padded
stride. -/
theorem C7_row_padding_amended_witness :
    (uvc_copy_bytes 4 8 2 16 false padFo).length = 8 * 2 * 16 / 8
    ∧ (uvc_copy_bytes 4 8 2 16 false padFo).getD (1 * (8 * 16 / 8) + 3) 0
        = padFo.pixels (1 * ((8 * 16 / 8 / 64 + 1) * 64) + 3) := by
  have h := (C7_row_padding_amended 4 8 2 16 padFo (by decide) (by decide) (by decide)).1
      (by decide) (by decide)
  exact ⟨h.1, h.2 1 3 (by decide) (by decide)⟩

end LRS
